import Mathlib

/-!
Shallow embedding of the oxylabs-sdk-python internal client
(src/internal/internal.py) and option utilities (src/utils/utils.py).

Conventions of the embedding:
- Decoded JSON payloads are opaque; a fetched result body is modelled as a `Nat`.
- The HTTP transport (aiohttp / requests) is an external collaborator; it is
  modelled as the responses the mocked server would give to each request.
- Python exceptions raised inside a `try` block become the `Except` error case;
  the surrounding handlers are modelled explicitly, so a handler that swallows
  an exception and returns `None` is visible as such.
- The unbounded `while True` poll loop is modelled with a fuel argument: fuel
  counts loop iterations the event loop has executed so far, and running out of
  fuel means the coroutine is still suspended inside the loop, not that it
  returned.
- Each request the client issues is recorded as an `Event` in a trace, in
  program order, so claims about which requests are issued (and in which order)
  are claims about the trace.
-/

namespace OxySdk

/-- Classes of Python exceptions that the async client catches
(`aiohttp.ClientResponseError`, `aiohttp.ClientConnectionError`,
`asyncio.TimeoutError`, and the catch-all `Exception`, which covers
malformed-body `KeyError` cases and the `Job faulted` raise). -/
inductive PyExc where
  | clientResponseError (status : Nat)
  | clientConnectionError
  | timeoutError
  | generic (msg : String)
  deriving DecidableEq, Repr

/-- Transport outcome of the submit POST in `ClientAsync.get_job_id`:
either the request pipeline raises an exception (connection error, non-2xx via
`raise_for_status`, timeout, malformed body), or it yields a JSON body whose
optional `id` field is given (a missing `id` raises `KeyError`, caught by the
generic handler, hence modelled below). -/
inductive SubmitResp where
  | err (e : PyExc)
  | ok (body_id : Option String)
  deriving DecidableEq, Repr

/-- Transport outcome of one poll GET in `ClientAsync.poll_job_status`:
an exception from the request pipeline, or a JSON body with the given
`status` string. -/
inductive PollResp where
  | err (e : PyExc)
  | ok (status : String)
  deriving DecidableEq, Repr

/-- Transport outcome of the results GET in `ClientAsync.get_http_resp`. -/
inductive FetchResp where
  | err (e : PyExc)
  | ok (payload : Nat)
  deriving DecidableEq, Repr

/-- A mocked transport: what the backend answers to the submit request, to the
i-th poll request, and to the fetch request. -/
structure Transport where
  submitResp : SubmitResp
  pollResps : Nat → PollResp
  fetchResp : FetchResp

/-- Requests issued by one `execute_with_timeout` call, plus the sleeps between
poll iterations. `poll` and `fetch` record the job id interpolated into the
request URL; job id `none` is Python `None`, which the f-string renders as the
literal path segment `None`. -/
inductive Event where
  | submit
  | poll (job_id : Option String)
  | wait
  | fetch (job_id : Option String)
  deriving DecidableEq, Repr

/-- `ClientAsync.get_job_id` (internal.py lines 101-117): POST the payload;
on success return `data["id"]`; every exception class is caught, printed and
turned into `return None`, including a missing `id` field (`KeyError` lands in
the generic `except Exception` handler). -/
def get_job_id (r : SubmitResp) : Option String :=
  match r with
  | .err _ => none
  | .ok none => none
  | .ok (some i) => some i

/-- The `try` body of one iteration of the `while True` loop in
`ClientAsync.poll_job_status` (internal.py lines 121-131): issue the GET,
`raise_for_status`, decode, then branch on `job["status"]`.
`Except.ok (some true)` is `return True` (status done);
`Except.ok none` is falling through to the sleep (any non-terminal status);
`Except.error` is an exception escaping the body - note that status `faulted`
raises `Exception("Job faulted")` from inside this same `try` block. -/
def poll_try_body (r : PollResp) : Except PyExc (Option Bool) :=
  match r with
  | .err e => .error e
  | .ok s =>
    if s = "done" then .ok (some true)
    else if s = "faulted" then .error (.generic "Job faulted")
    else .ok none

/-- Result of one full loop iteration after the `except` clauses
(internal.py lines 132-145): every handler, including the catch-all
`except Exception`, prints and does `return None`; `returnNone` records which
exception was caught. -/
inductive IterResult where
  | returnTrue
  | returnNone (caught : PyExc)
  | continueLoop
  deriving DecidableEq, Repr

/-- One iteration of the poll loop: the `try` body wrapped in its handlers.
All four handlers behave identically (print, `return None`), so any exception
from the body - the `Job faulted` raise included - yields `returnNone`. -/
def poll_iteration (r : PollResp) : IterResult :=
  match poll_try_body r with
  | .ok (some _) => .returnTrue
  | .ok none => .continueLoop
  | .error e => .returnNone e

/-- `ClientAsync.poll_job_status` (internal.py lines 119-146): the
`while True` loop, at the i-th iteration consuming `resps i`, sleeping
`poll_interval` between iterations. Returns the trace of requests/sleeps and
`some v` when the Python function returned `v` (`some true` for done, `none`
for any caught exception), or `none` when the given fuel ran out with the
coroutine still inside the loop. -/
def poll_job_status (resps : Nat → PollResp) (job_id : Option String) :
    Nat → Nat → List Event × Option (Option Bool)
  | 0, _ => ([], none)
  | fuel + 1, i =>
    match poll_iteration (resps i) with
    | .returnTrue => ([.poll job_id], some (some true))
    | .returnNone _ => ([.poll job_id], some none)
    | .continueLoop =>
      let r := poll_job_status resps job_id fuel (i + 1)
      (.poll job_id :: .wait :: r.1, r.2)

/-- `ClientAsync.get_http_resp` (internal.py lines 148-162): GET the results
URL; every exception class is caught, printed and turned into `return None`. -/
def get_http_resp (r : FetchResp) : Option Nat :=
  match r with
  | .err _ => none
  | .ok p => some p

/-- The `config` dict as produced by `prepare_config`: each field is `some v`
when the corresponding key is present in the dict with value `v`, `none` when
the key is absent. -/
structure Config where
  timeout : Option Nat
  poll_interval : Option Nat
  deriving DecidableEq, Repr

/-- Overall outcome of `execute_with_timeout`:
`keyError` - the uncaught `KeyError` from `config["poll_interval"]` when the
key is absent; `polling` - the poll loop had not returned within the given
fuel (the coroutine is still suspended); `returned p` - the function returned
`p`, the value of `get_http_resp`. -/
inductive ExecOutcome where
  | keyError
  | polling
  | returned (p : Option Nat)
  deriving DecidableEq, Repr

/-- `ClientAsync.execute_with_timeout` (internal.py lines 164-169):
`job_id = await get_job_id(payload)` (its `None` failure result is not
checked), then `await poll_job_status(job_id, config["poll_interval"])` (its
return value is discarded), then `return await get_http_resp(job_id)`.
No timeout mechanism appears in the body: `config` is read only at the
`"poll_interval"` key, and `config["timeout"]` is never accessed. -/
def execute_with_timeout (t : Transport) (config : Config) (fuel : Nat) :
    List Event × ExecOutcome :=
  let job_id := get_job_id t.submitResp
  match config.poll_interval with
  | none => ([Event.submit], ExecOutcome.keyError)
  | some _ =>
    let pr := poll_job_status t.pollResps job_id fuel 0
    match pr.2 with
    | none => (Event.submit :: pr.1, ExecOutcome.polling)
    | some _ =>
      (Event.submit :: pr.1 ++ [Event.fetch job_id],
       ExecOutcome.returned (get_http_resp t.fetchResp))

/-- A run configuration with both keys present, as the SDK builds for the
async path. -/
def cfgRun : Config := { timeout := some 50, poll_interval := some 10 }

/-- Mock transport for the happy path of the spec: submit yields job id abc,
the first two polls report pending, the third reports done, fetch yields the
decoded result payload (42 stands for the decoded body). -/
def tHappy : Transport :=
  { submitResp := .ok (some "abc"),
    pollResps := fun i => if i < 2 then .ok "pending" else .ok "done",
    fetchResp := .ok 42 }

/-- Mock transport where the first poll reports status faulted. -/
def tFaulted : Transport :=
  { submitResp := .ok (some "abc"),
    pollResps := fun _ => .ok "faulted",
    fetchResp := .ok 7 }

/-- Mock transport where the submit POST fails with a connection error; the
backend then answers 404 to the poll and fetch requests made against the
literal path segment `None`. -/
def tSubmitFail : Transport :=
  { submitResp := .err .clientConnectionError,
    pollResps := fun _ => .err (.clientResponseError 404),
    fetchResp := .err (.clientResponseError 404) }

/-- Mock transport where the first poll attempt fails with a connection
error while fetch would succeed. -/
def tPollFail : Transport :=
  { submitResp := .ok (some "abc"),
    pollResps := fun _ => .err .clientConnectionError,
    fetchResp := .ok 7 }

/-- Mock transport whose poll never reaches a terminal status. -/
def tPending : Transport :=
  { submitResp := .ok (some "abc"),
    pollResps := fun _ => .ok "pending",
    fetchResp := .ok 7 }

/-!
Synchronous client: `Client.req` (internal.py lines 36-72).
-/

/-- Classes of exceptions the synchronous path distinguishes:
`requests.exceptions.Timeout`, and other `requests.exceptions.RequestException`
subclasses raised by `requests.post` / `requests.get` (connection errors and
the like). `HTTPError` is raised later, by `raise_for_status`, and is modelled
at that point. -/
inductive ReqExc where
  | timeoutExc
  | connectionExc
  | otherRequestExc
  deriving DecidableEq, Repr

/-- Transport outcome of one `requests.post` / `requests.get` call: an
exception, or a response with its final status code and its JSON body
(`none` body = a body that fails to decode; `requests` raises a
`RequestException` subclass from `response.json()` in that case). -/
inductive ReqResult where
  | exc (e : ReqExc)
  | resp (status : Nat) (body : Option Nat)
  deriving DecidableEq, Repr

/-- Transport calls the synchronous executor can issue. -/
inductive SyncEvent where
  | post
  | get
  deriving DecidableEq, Repr

/-- The `print` calls of `Client.req`, which are the only way it distinguishes
failure kinds (the return value is `None` for all of them). -/
inductive LogEntry where
  | unsupportedMethod (m : String)
  | errorStatus (code : Nat)
  | timeoutMsg
  | httpErrorMsg (code : Nat)
  | requestErrorMsg
  deriving DecidableEq, Repr

/-- Mocked transport for the synchronous client: what the server answers to a
POST and to a GET. -/
structure SyncTransport where
  postResp : ReqResult
  getResp : ReqResult
  deriving DecidableEq, Repr

/-- The part of `Client.req` after a supported method issued its call
(internal.py lines 53-72): `raise_for_status` (raises `HTTPError` for status
400 and above, caught and logged), then return the decoded body if the status
code is exactly 200, else log the status and return `None`; the `except`
clauses map `Timeout`, `HTTPError` and any other `RequestException` to a log
line and `None`. -/
def handle_response (calls : List SyncEvent) (r : ReqResult) :
    List SyncEvent × List LogEntry × Option Nat :=
  match r with
  | .exc .timeoutExc => (calls, [.timeoutMsg], none)
  | .exc .connectionExc => (calls, [.requestErrorMsg], none)
  | .exc .otherRequestExc => (calls, [.requestErrorMsg], none)
  | .resp status body =>
    if 400 ≤ status then (calls, [.httpErrorMsg status], none)
    else if status = 200 then
      match body with
      | some p => (calls, [], some p)
      | none => (calls, [.requestErrorMsg], none)
    else (calls, [.errorStatus status], none)

/-- `Client.req` (internal.py lines 36-72): dispatch on the method string;
POST and GET issue one transport call and run `handle_response`; any other
method prints an unsupported-method message and returns `None` without any
transport call. Returns (transport calls, log lines, return value). -/
def req (t : SyncTransport) (method : String) :
    List SyncEvent × List LogEntry × Option Nat :=
  if method = "POST" then handle_response [.post] t.postResp
  else if method = "GET" then handle_response [.get] t.getResp
  else ([], [.unsupportedMethod method], none)

/-!
Option utilities: src/utils/utils.py.
-/

/-- Modelled from the spec: `utils.defaults` is not under src/; the spec only
says the default timeout and poll interval are documented defaults provided
externally, without fixing their numeric values, so they are named constants
here (their concrete values are irrelevant to every claim below). -/
def DEFAULT_TIMEOUT : Nat := 50

/-- Modelled from the spec: the externally provided default poll interval,
see `DEFAULT_TIMEOUT`. -/
def DEFAULT_POLL_INTERVAL : Nat := 2

/-- The `**kwargs` of `prepare_config`: each field is `some v` when the key is
present among the keyword arguments (with `v = none` for an explicit Python
`None` value and `v = some d` for a duration `d`), and `none` when the key is
absent. -/
structure Kwargs where
  timeout : Option (Option Nat)
  poll_interval : Option (Option Nat)
  deriving DecidableEq, Repr

/-- `prepare_config` (utils.py lines 70-82): start from an empty dict; only if
the key is in `kwargs` is it written into the config, using the default only
when the supplied value is `None`. A key absent from `kwargs` is absent from
the returned config. -/
def prepare_config (kw : Kwargs) : Config :=
  { timeout :=
      match kw.timeout with
      | none => none
      | some none => some DEFAULT_TIMEOUT
      | some (some v) => some v,
    poll_interval :=
      match kw.poll_interval with
      | none => none
      | some none => some DEFAULT_POLL_INTERVAL
      | some (some v) => some v }

/-- Is `sub` a prefix of `s` (on character lists)? Structural helper for the
Python substring test. -/
def isPrefixOfList : List Char → List Char → Bool
  | [], _ => true
  | _ :: _, [] => false
  | a :: as, b :: bs => a == b && isPrefixOfList as bs

/-- Does `sub` occur as a contiguous substring of `s` (on character lists)?
Helper for the Python substring test. -/
def containsSub (sub : List Char) : List Char → Bool
  | [] => sub.isEmpty
  | c :: rest => isPrefixOfList sub (c :: rest) || containsSub sub rest

/-- The Python expression `sub in s` on strings: substring containment. -/
def strContains (s sub : String) : Bool :=
  containsSub sub.toList s.toList

/-- Result of `urllib.parse.urlparse` as used by `validate_url`: only the
`scheme` and `netloc` components are read. -/
structure ParsedUrl where
  scheme : String
  netloc : String
  deriving DecidableEq, Repr

/-- Splits a character list at the first occurrence of `sep`, returning the
parts before and after it, or `none` when `sep` does not occur. -/
def splitOnSep (sep : List Char) : List Char → Option (List Char × List Char)
  | [] => if sep.isEmpty then some ([], []) else none
  | c :: rest =>
    if isPrefixOfList sep (c :: rest) then
      some ([], List.drop sep.length (c :: rest))
    else
      match splitOnSep sep rest with
      | none => none
      | some (pre, post) => some (c :: pre, post)

/-- The characters before the first slash. -/
def takeUntilSlash : List Char → List Char
  | [] => []
  | c :: rest => if c = '/' then [] else c :: takeUntilSlash rest

/-- Modelled from the spec: `urllib.parse.urlparse` is a standard-library
collaborator, not repository code. It is modelled on URLs of the common shape
scheme://netloc/path... - the scheme is everything before the first ://, the
netloc everything between the :// and the next slash; inputs without :// parse
with empty scheme and netloc (as the real parser gives for a bare hostname or
path, which has no netloc either). -/
def urlparse (u : String) : ParsedUrl :=
  match splitOnSep ("://".toList) u.toList with
  | none => { scheme := "", netloc := "" }
  | some (pre, post) =>
    { scheme := String.mk pre, netloc := String.mk (takeUntilSlash post) }

/-- `validate_url` (utils.py lines 85-105): reject an empty URL, a missing
scheme, a missing host; then accept exactly when `host in parsed_url.netloc`
holds, i.e. when the expected host occurs as a substring of the netloc.
Python `raise ValueError(msg)` is `Except.error msg`; the final `return None`
is `Except.ok ()`. -/
def validate_url (input_url host : String) : Except String Unit :=
  if input_url = "" then .error "URL parameter is empty"
  else
    let parsed := urlparse input_url
    if parsed.scheme = "" then .error "URL is missing scheme"
    else if parsed.netloc = "" then .error "URL is missing a host"
    else if strContains parsed.netloc host then .ok ()
    else .error ("URL does not belong to " ++ host)

/-- `check_limit_validity` (utils.py lines 128-130): raise for a non-positive
limit, otherwise do nothing. Limits are integers (Python ints). -/
def check_limit_validity (limit : Int) : Except String Unit :=
  if limit ≤ 0 then .error "Limit parameter must be greater than 0" else .ok ()

/-- `check_pages_validity` (utils.py lines 133-135). -/
def check_pages_validity (pages : Int) : Except String Unit :=
  if pages ≤ 0 then .error "Pages parameter must be greater than 0" else .ok ()

/-- `check_start_page_validity` (utils.py lines 138-140). -/
def check_start_page_validity (start_page : Int) : Except String Unit :=
  if start_page ≤ 0 then .error "Start page parameter must be greater than 0"
  else .ok ()

/-!
Helper lemmas about the poll loop.
-/

/-- On a transport whose polls always report `pending`, the poll loop never
returns within any fuel and its trace never contains a fetch event. -/
theorem pending_poll_loop_runs (job_id j : Option String) (fuel : Nat) :
    ∀ i, (poll_job_status (fun _ => PollResp.ok "pending") job_id fuel i).2 = none ∧
      Event.fetch j ∉ (poll_job_status (fun _ => PollResp.ok "pending") job_id fuel i).1 := by
  induction fuel with
  | zero =>
    intro i
    simp [poll_job_status]
  | succ n ih =>
    intro i
    have h := ih (i + 1)
    have hred : poll_job_status (fun _ => PollResp.ok "pending") job_id (n + 1) i =
        (Event.poll job_id :: Event.wait ::
          (poll_job_status (fun _ => PollResp.ok "pending") job_id n (i + 1)).1,
         (poll_job_status (fun _ => PollResp.ok "pending") job_id n (i + 1)).2) := rfl
    rw [hred]
    refine ⟨h.1, ?_⟩
    simp only [List.mem_cons, not_or]
    exact ⟨by simp, by simp, h.2⟩

/-- Once the poll loop has returned within some fuel, adding fuel changes
nothing: the trace and the returned value are stable. -/
theorem poll_job_status_fuel_stable (resps : Nat → PollResp) (jid : Option String) :
    ∀ fuel i v, (poll_job_status resps jid fuel i).2 = some v →
      ∀ k, poll_job_status resps jid (fuel + k) i = poll_job_status resps jid fuel i := by
  intro fuel
  induction fuel with
  | zero =>
    intro i v hv
    simp [poll_job_status] at hv
  | succ n ih =>
    intro i v hv k
    have hslide : n + 1 + k = (n + k) + 1 := by omega
    rw [hslide]
    simp only [poll_job_status] at hv ⊢
    cases hit : poll_iteration (resps i) with
    | returnTrue => simp [hit]
    | returnNone e => simp [hit]
    | continueLoop =>
      simp only [hit] at hv ⊢
      rw [ih (i + 1) v hv k]

/-- On the happy-path transport, running the engine with any fuel beyond the
three iterations the loop actually needs gives the same run: the fuel bound is
an artifact of the embedding, not of the program. -/
theorem execute_happy_fuel_irrelevant (k : Nat) :
    execute_with_timeout tHappy cfgRun (3 + k) = execute_with_timeout tHappy cfgRun 3 := by
  have h := poll_job_status_fuel_stable tHappy.pollResps (some "abc") 3 0 (some true)
    (by decide) k
  simp only [execute_with_timeout, cfgRun, tHappy, get_job_id] at h ⊢
  rw [h]

/-!
The claims.
-/

/-- Claim C1. The claim says: whenever a poll response reports status
`faulted`, `execute` fails with a `JobFaulted` error and never issues a fetch
request. The code instead raises `Exception("Job faulted")` inside the very
`try` block whose generic `except Exception` handler catches it, prints, and
returns `None`; `execute_with_timeout` ignores that `None` and proceeds to
issue the fetch request, returning its payload. This theorem evaluates the
code at the failing input: the first poll reports `faulted`, the caught
exception is exactly the `Job faulted` raise, yet the trace contains a fetch
event and the call returns the fetched payload instead of failing. -/
theorem faulted_poll_swallowed_then_fetches :
    poll_iteration (PollResp.ok "faulted") =
      IterResult.returnNone (PyExc.generic "Job faulted") ∧
    execute_with_timeout tFaulted cfgRun 5 =
      ([Event.submit, Event.poll (some "abc"), Event.fetch (some "abc")],
       ExecOutcome.returned (some 7)) :=
  ⟨rfl, by decide⟩

/-- Claim C2. The claim says: when the submit request fails, `execute` fails
immediately with the classified error and issues no poll request at all. In
the code `get_job_id` catches every exception and returns `None`, and
`execute_with_timeout` does not check that result: it proceeds to poll (and
then fetch) the URL built from job id `None`. This theorem evaluates the code
at the failing input: submit fails with a connection error, yet the trace
contains a poll request and a fetch request (both against job id `none`), and
the call returns `None` from the fetch instead of failing at submit time. -/
theorem failed_submit_still_polls :
    get_job_id tSubmitFail.submitResp = none ∧
    execute_with_timeout tSubmitFail cfgRun 5 =
      ([Event.submit, Event.poll none, Event.fetch none],
       ExecOutcome.returned none) :=
  ⟨rfl, by decide⟩

/-- Claim C3. The claim says: when polling never reaches a terminal status,
the timeout wrapper cancels the operation once `runConfig.timeoutDuration`
elapses and `execute` fails with a `Timeout` error. The code has no timeout
wrapper at all: `execute_with_timeout` never reads `config["timeout"]` and
its poll loop has no other exit. This theorem evaluates the code on a
transport whose polls always report `pending`: for every number of executed
loop iterations and every configured timeout value, the call is still inside
the poll loop (it never terminates, with a `Timeout` error or otherwise); no
fetch request is issued. -/
theorem execute_never_times_out (fuel : Nat) (tv : Option Nat) (j : Option String) :
    (execute_with_timeout tPending { timeout := tv, poll_interval := some 10 } fuel).2 =
      ExecOutcome.polling ∧
    Event.fetch j ∉
      (execute_with_timeout tPending { timeout := tv, poll_interval := some 10 } fuel).1 := by
  have h := pending_poll_loop_runs (some "abc") j fuel 0
  simp only [execute_with_timeout, tPending, get_job_id, h.1]
  refine ⟨trivial, ?_⟩
  simp only [List.mem_cons, not_or]
  exact ⟨by simp, h.2⟩

/-- Claim C4. The claim says: when a poll attempt fails at the transport
level, the whole `execute` call terminates immediately with the classified
error, without a fetch request. In the code the failed poll does end the loop
(`return None`, no re-poll), but `execute_with_timeout` discards that result
and issues the fetch request anyway, returning its payload. This theorem
evaluates the code at the failing input: the first poll raises a connection
error, the loop returns `None` without retrying, yet the trace contains a
fetch event and the call returns the fetched payload instead of the
classified error. -/
theorem failed_poll_still_fetches :
    poll_job_status tPollFail.pollResps (some "abc") 5 0 =
      ([Event.poll (some "abc")], some none) ∧
    execute_with_timeout tPollFail cfgRun 5 =
      ([Event.submit, Event.poll (some "abc"), Event.fetch (some "abc")],
       ExecOutcome.returned (some 7)) :=
  ⟨by decide, by decide⟩

/-- Claim C5, counterexample. The claim says `prepare_config` with empty
overrides returns the documented default timeout and poll interval, and with
only `timeout = T` returns `T` plus the default poll interval. In the code a
key is written into the config only when it is present among the keyword
arguments, so empty overrides give an empty config, and `timeout = 30` alone
gives a config with no poll-interval key at all. -/
theorem prepare_config_empty_gives_no_defaults :
    prepare_config { timeout := none, poll_interval := none } =
      { timeout := none, poll_interval := none } ∧
    prepare_config { timeout := none, poll_interval := none } ≠
      { timeout := some DEFAULT_TIMEOUT, poll_interval := some DEFAULT_POLL_INTERVAL } ∧
    (prepare_config { timeout := some (some 30), poll_interval := none }).poll_interval ≠
      some DEFAULT_POLL_INTERVAL :=
  ⟨rfl, by decide, by decide⟩

/-- Claim C5, amended. `prepare_config` copies exactly the keys present in
the overrides: an absent key stays absent; a key supplied as Python `None` is
replaced by its documented default; a key supplied with a value keeps that
value. In particular empty overrides give an empty config, and overrides with
only `timeout = T` give a config whose only key is `timeout = T`. -/
theorem prepare_config_copies_present_keys (T P : Nat) :
    prepare_config { timeout := none, poll_interval := none } =
      { timeout := none, poll_interval := none } ∧
    prepare_config { timeout := some (some T), poll_interval := none } =
      { timeout := some T, poll_interval := none } ∧
    prepare_config { timeout := some none, poll_interval := some none } =
      { timeout := some DEFAULT_TIMEOUT, poll_interval := some DEFAULT_POLL_INTERVAL } ∧
    prepare_config { timeout := some (some T), poll_interval := some (some P) } =
      { timeout := some T, poll_interval := some P } :=
  ⟨rfl, rfl, rfl, rfl⟩

/-- Claim C6. On the mocked transport where submit returns job id abc, the
first two polls report `pending`, the third reports `done` and fetch returns
the payload (42 standing for the decoded result body), `execute` returns that
payload and issues exactly one submit, exactly three polls and exactly one
fetch, in strict Submit, Poll, Fetch order, with one poll-interval wait after
each of the two `pending` polls (two waits between the three polls). The loop
returns at its third iteration, so every larger fuel gives the identical
run - the result is about the real, unbounded loop. -/
theorem happy_path_exact_calls :
    execute_with_timeout tHappy cfgRun 3 =
      ([Event.submit, Event.poll (some "abc"), Event.wait, Event.poll (some "abc"),
        Event.wait, Event.poll (some "abc"), Event.fetch (some "abc")],
       ExecOutcome.returned (some 42)) ∧
    (∀ k, execute_with_timeout tHappy cfgRun (3 + k) = execute_with_timeout tHappy cfgRun 3) ∧
    (execute_with_timeout tHappy cfgRun 3).1.count Event.submit = 1 ∧
    (execute_with_timeout tHappy cfgRun 3).1.count (Event.poll (some "abc")) = 3 ∧
    (execute_with_timeout tHappy cfgRun 3).1.count (Event.fetch (some "abc")) = 1 ∧
    (execute_with_timeout tHappy cfgRun 3).1.count Event.wait = 2 :=
  ⟨by decide, execute_happy_fuel_irrelevant, by decide, by decide, by decide, by decide⟩

/-- Claim C7. For every method other than POST and GET, `Client.req` takes
the unsupported-method branch: it performs no transport call at all, logs the
unsupported-method message (the failure classification this code surfaces),
and returns `None`, the failure value of this executor. -/
theorem unsupported_method_no_call (t : SyncTransport) (m : String)
    (h1 : m ≠ "POST") (h2 : m ≠ "GET") :
    req t m = ([], [LogEntry.unsupportedMethod m], none) := by
  simp [req, h1, h2]

/-- Witness for claim C7 at the concrete method PUT. -/
theorem unsupported_method_no_call_witness :
    req { postResp := .resp 200 (some 1), getResp := .resp 200 (some 1) } "PUT" =
      ([], [LogEntry.unsupportedMethod "PUT"], none) :=
  unsupported_method_no_call _ "PUT" (by decide) (by decide)

/-- Claim C8. Each of the limit, pages and start-page validators raises its
own descriptive error exactly on non-positive values and is a no-op on every
strictly positive value; the three messages are pairwise distinct, and the
validators are pure - they touch no transport, so the error precedes any
network call. -/
theorem validators_positive_only (n p : Int) (hn : n ≤ 0) (hp : 0 < p) :
    check_limit_validity n = Except.error "Limit parameter must be greater than 0" ∧
    check_pages_validity n = Except.error "Pages parameter must be greater than 0" ∧
    check_start_page_validity n = Except.error "Start page parameter must be greater than 0" ∧
    check_limit_validity p = Except.ok () ∧
    check_pages_validity p = Except.ok () ∧
    check_start_page_validity p = Except.ok () ∧
    ("Limit parameter must be greater than 0" : String) ≠
      "Pages parameter must be greater than 0" ∧
    ("Limit parameter must be greater than 0" : String) ≠
      "Start page parameter must be greater than 0" ∧
    ("Pages parameter must be greater than 0" : String) ≠
      "Start page parameter must be greater than 0" := by
  have hp2 : ¬ p ≤ 0 := not_le.mpr hp
  refine ⟨?_, ?_, ?_, ?_, ?_, ?_, by decide, by decide, by decide⟩ <;>
    simp [check_limit_validity, check_pages_validity, check_start_page_validity, hn, hp2]

/-- Witness for claim C8 at limit 0 and limit 1. -/
theorem validators_positive_only_witness :
    check_limit_validity 0 = Except.error "Limit parameter must be greater than 0" ∧
    check_pages_validity 0 = Except.error "Pages parameter must be greater than 0" ∧
    check_start_page_validity 0 = Except.error "Start page parameter must be greater than 0" ∧
    check_limit_validity 1 = Except.ok () ∧
    check_pages_validity 1 = Except.ok () ∧
    check_start_page_validity 1 = Except.ok () ∧
    ("Limit parameter must be greater than 0" : String) ≠
      "Pages parameter must be greater than 0" ∧
    ("Limit parameter must be greater than 0" : String) ≠
      "Start page parameter must be greater than 0" ∧
    ("Pages parameter must be greater than 0" : String) ≠
      "Start page parameter must be greater than 0" :=
  validators_positive_only 0 1 (by decide) (by decide)

/-- Claim C9. The host check of `validate_url` is substring containment, not
equality: every URL with a non-empty scheme and netloc is accepted as soon as
the expected host occurs anywhere inside the netloc - in particular for a
netloc that is a different domain merely containing the host string. -/
theorem validate_url_accepts_host_substring (u host : String)
    (h0 : u ≠ "") (h1 : (urlparse u).scheme ≠ "") (h2 : (urlparse u).netloc ≠ "")
    (h3 : strContains (urlparse u).netloc host = true) :
    validate_url u host = Except.ok () := by
  simp [validate_url, h0, h1, h2, h3]

/-- Witness for claim C9 at the spec example: expected host example.com
against the unrelated netloc notexample.com.evil.net. -/
theorem validate_url_accepts_host_substring_witness :
    validate_url "https://notexample.com.evil.net/page" "example.com" = Except.ok () :=
  validate_url_accepts_host_substring "https://notexample.com.evil.net/page" "example.com"
    (by decide) (by decide) (by decide) (by decide)

/-- Claim C10. `Client.req` returns the decoded body only for status code
exactly 200: every other successful (2xx) status yields `None`, which is the
same return value as a transport failure (here a connection error), so such
responses are indistinguishable from errors by the return value; status 200
with a decodable body yields the body. -/
theorem req_returns_body_only_for_200 (status p : Nat)
    (hlo : 200 ≤ status) (hhi : status < 300) (hne : status ≠ 200) :
    (req { postResp := .resp status (some p), getResp := .resp status (some p) }
        "POST").2.2 = none ∧
    (req { postResp := .exc .connectionExc, getResp := .exc .connectionExc }
        "POST").2.2 = none ∧
    (req { postResp := .resp 200 (some p), getResp := .resp 200 (some p) }
        "POST").2.2 = some p := by
  refine ⟨?_, rfl, rfl⟩
  have h400 : ¬ 400 ≤ status := by omega
  simp [req, handle_response, h400, hne]

/-- Witness for claim C10 at the 2xx status 201. -/
theorem req_returns_body_only_for_200_witness :
    (req { postResp := .resp 201 (some 5), getResp := .resp 201 (some 5) }
        "POST").2.2 = none ∧
    (req { postResp := .exc .connectionExc, getResp := .exc .connectionExc }
        "POST").2.2 = none ∧
    (req { postResp := .resp 200 (some 5), getResp := .resp 200 (some 5) }
        "POST").2.2 = some 5 :=
  req_returns_body_only_for_200 201 5 (by decide) (by decide) (by decide)

end OxySdk
